import Mathlib

/-!
# Verification of the poly-racer race core

Shallow embedding, over `ℚ`, of the race-progression state machine
(`src/js/game/Game.js`, first variant, lines 1-345), the race timer
(`src/js/game/GhostCar.js`, `Timer` section, lines 222-380), the ghost
playback interpolation (`src/js/game/GhostCar.js`, `GhostCar.update`,
lines 126-170), the vehicle physics (`src/js/physics/VehiclePhysics.js`,
and the variant in `src/unnamed/part_005`), and the spline track builder
guard (`src/js/track/SplineTrackBuilder.js`, `build`, lines 24-35).

JavaScript numbers are modelled as rationals; `localStorage` is modelled
as a function from keys to optional stored numbers; `performance.now()`
is threaded through as an explicit `now` argument; observer callbacks
(`onCheckpoint`, `onFinish`) are modelled as event lists appended to the
state.
-/

namespace PolyRacer

/-- 3-vector of rationals (models `THREE.Vector3` fields used by the core). -/
structure Vec3 where
  x : ℚ
  y : ℚ
  z : ℚ
deriving DecidableEq, Repr

/-- Quaternion components (models `THREE.Quaternion` as raw data). -/
structure Quat where
  x : ℚ
  y : ℚ
  z : ℚ
  w : ℚ
deriving DecidableEq, Repr

def Vec3.dot (a b : Vec3) : ℚ := a.x * b.x + a.y * b.y + a.z * b.z

def Vec3.add (a b : Vec3) : Vec3 := ⟨a.x + b.x, a.y + b.y, a.z + b.z⟩

def Vec3.sub (a b : Vec3) : Vec3 := ⟨a.x - b.x, a.y - b.y, a.z - b.z⟩

def Vec3.smul (c : ℚ) (a : Vec3) : Vec3 := ⟨c * a.x, c * a.y, c * a.z⟩

/-! ## Timer (src/js/game/GhostCar.js, lines 227-380, class `Timer`) -/

/-- `localStorage` model: best-time entries keyed by string, values are the
numbers stored by `localStorage.setItem(key, time.toString())` (the
string round-trip is identity on the rationals we model). -/
def Store : Type := String → Option ℚ

def Store.set (st : Store) (key : String) (v : ℚ) : Store :=
  fun k => if k = key then some v else st k

/-- State of the `Timer` class (constructor, lines 228-239). -/
structure TimerState where
  startTime : ℚ
  currentTime : ℚ
  lapTimes : List ℚ
  bestTime : Option ℚ
  isRunning : Bool
  currentLap : ℕ
  totalLaps : ℕ
  lapStartTime : ℚ

/-- `Timer.stop` (lines 256-262): freezes `currentTime` if running and
returns it. `performance.now()` is the explicit `now`. -/
def timerStop (now : ℚ) (t : TimerState) : ℚ × TimerState :=
  if t.isRunning then
    let ct := now - t.startTime
    (ct, { t with currentTime := ct, isRunning := false })
  else (t.currentTime, t)

/-- `Timer.recordLap` (lines 287-298): no-op when not running; otherwise
pushes the split since the last lap boundary, resets the boundary and
increments the lap counter. -/
def recordLap (now : ℚ) (t : TimerState) : TimerState :=
  if t.isRunning then
    { t with
      lapTimes := t.lapTimes ++ [now - t.lapStartTime]
      lapStartTime := now
      currentLap := t.currentLap + 1 }
  else t

/-- The `localStorage` key used for best times (lines 326, 342). -/
def bestKey (trackId : String) : String := "polyracer_best_" ++ trackId

/-- `Timer.saveBestTime` (lines 341-351): persists `time` and updates the
in-memory `bestTime` when there is no previous best or `time` is strictly
smaller; returns whether a new record was set. -/
def saveBestTime (st : Store) (t : TimerState) (trackId : String) (time : ℚ) :
    Store × TimerState × Bool :=
  match t.bestTime with
  | none => (st.set (bestKey trackId) time, { t with bestTime := some time }, true)
  | some b =>
      if time < b then
        (st.set (bestKey trackId) time, { t with bestTime := some time }, true)
      else (st, t, false)

/-! ## Race progression (src/js/game/Game.js, first variant, lines 4-345) -/

/-- `Game.state` values (Game.js line 9). -/
inductive RaceState
  | menu
  | ready
  | countdown
  | playing
  | paused
  | finished
deriving DecidableEq, Repr

/-- A fired `onCheckpoint(index, isFinish)` callback (Game.js lines 239-241). -/
structure CpEvent where
  index : ℕ
  isFinish : Bool
deriving DecidableEq, Repr

/-- A fired `onFinish(time, bestTime, isNewRecord)` callback (Game.js lines 283-285). -/
structure FinishEvent where
  time : ℚ
  bestTime : Option ℚ
  isNewRecord : Bool

/-- State of the `Game` class (constructor, lines 5-43) restricted to the
fields the race-progression logic reads or writes.  The physics pose is
mirrored (`physicsPosition`, `physicsRotY` stand for `this.physics.position`
and `this.physics.rotation.y`); ghost recording/playback are the
`GhostCar.isRecording` / `GhostCar.isPlaying` flags; callbacks are event
lists; `store` is the `localStorage` slice holding best times. -/
structure GameState where
  state : RaceState
  currentTrackId : String
  currentCheckpoint : ℕ
  totalCheckpoints : ℕ
  lastCheckpointPosition : Vec3
  lastCheckpointRotation : ℚ
  timer : TimerState
  physicsPosition : Vec3
  physicsRotY : ℚ
  ghostRecording : Bool
  ghostPlaying : Bool
  cpEvents : List CpEvent
  finishEvents : List FinishEvent
  store : Store

/-- `Game.finishRace` (lines 263-286): stops the timer, enters `finished`,
stops ghost recording and playback, compares/persists the best time and
fires `onFinish`.  (The recorded ghost trajectory itself lives in
`GhostCar.recordedData` and its conditional save is not modelled;
no claim refers to it.) -/
def finishRace (now : ℚ) (g : GameState) : GameState :=
  let stopped := timerStop now g.timer
  let saved := saveBestTime g.store stopped.2 g.currentTrackId stopped.1
  { g with
    state := RaceState.finished
    timer := saved.2.1
    ghostRecording := false
    ghostPlaying := false
    store := saved.1
    finishEvents := g.finishEvents ++ [⟨stopped.1, saved.2.1.bestTime, saved.2.2⟩] }

/-- `Game.handleFinish` (lines 249-258): final lap ends the race, any
earlier lap records a split and sets the checkpoint cursor to 0. -/
def handleFinish (now : ℚ) (g : GameState) : GameState :=
  if g.timer.totalLaps ≤ g.timer.currentLap then finishRace now g
  else { g with timer := recordLap now g.timer, currentCheckpoint := 0 }

/-- `Game.handleCheckpoint` (lines 225-247): accepts a hit only when its
index equals `currentCheckpoint % totalCheckpoints`; acceptance caches
the pose, advances the cursor, fires `onCheckpoint` and runs finish
handling for finish-flagged gates. -/
def handleCheckpoint (now : ℚ) (g : GameState) (index : ℕ) (isFinish : Bool) : GameState :=
  if g.totalCheckpoints = 0 then g
  else if index ≠ g.currentCheckpoint % g.totalCheckpoints then g
  else
    let g1 := { g with
      lastCheckpointPosition := g.physicsPosition
      lastCheckpointRotation := g.physicsRotY
      currentCheckpoint := g.currentCheckpoint + 1
      cpEvents := g.cpEvents ++ [⟨index, isFinish⟩] }
    if isFinish then handleFinish now g1 else g1

/-- `Game.pause` (lines 300-304). -/
def pause (g : GameState) : GameState :=
  if g.state = RaceState.playing then { g with state := RaceState.paused } else g

/-- `Game.resume` (lines 309-313). -/
def resume (g : GameState) : GameState :=
  if g.state = RaceState.paused then { g with state := RaceState.playing } else g

/-- C1: `Timer.saveBestTime(trackId, time)` persists and returns `true`
exactly when no previous best exists for the track or the new time is
strictly smaller; otherwise stored state and the in-memory `bestTime`
are unchanged and it returns `false`. The hypothesis ties the in-memory
`bestTime` to the stored entry for the track, as established by
`Timer.checkBestTime` during track load. -/
theorem saveBestTime_record_iff (st : Store) (t : TimerState) (trackId : String) (time : ℚ)
    (hsync : t.bestTime = st (bestKey trackId)) :
    let r := saveBestTime st t trackId time
    (r.2.2 = true ↔ st (bestKey trackId) = none ∨ ∃ b, st (bestKey trackId) = some b ∧ time < b) ∧
    (r.2.2 = true → r.1 (bestKey trackId) = some time ∧ r.2.1.bestTime = some time) ∧
    (r.2.2 = false → r.1 = st ∧ r.2.1 = t) := by
  unfold saveBestTime
  rcases hb : t.bestTime with _ | b
  · refine ⟨⟨fun _ => ?_, fun _ => rfl⟩, fun _ => ⟨?_, rfl⟩, fun h => by simp at h⟩
    · exact Or.inl (hsync.symm.trans hb)
    · simp [Store.set]
  · rcases lt_or_le time b with hlt | hge
    · refine ⟨⟨fun _ => ?_, fun _ => by simp [hlt]⟩, fun _ => ⟨?_, by simp [hlt]⟩, fun h => ?_⟩
      · exact Or.inr ⟨b, hsync.symm.trans hb, hlt⟩
      · simp [hlt, Store.set]
      · simp [hlt] at h
    · have hnlt : ¬ time < b := not_lt.mpr hge
      refine ⟨⟨fun h => by simp [hnlt] at h, fun h => ?_⟩, fun h => by simp [hnlt] at h,
        fun _ => by simp [hnlt]⟩
      rcases h with h | ⟨b2, hb2, hlt2⟩
      · rw [← hsync, hb] at h; exact absurd h (by simp)
      · rw [← hsync, hb] at hb2
        have : b2 = b := by injection hb2.symm
        exact absurd (this ▸ hlt2) hnlt

/-- Witness for C1 at a concrete input: empty store (no previous best),
time 100 is recorded. -/
theorem saveBestTime_record_iff_witness :
    let st : Store := fun _ => none
    let t : TimerState := ⟨0, 0, [], none, false, 0, 1, 0⟩
    t.bestTime = st (bestKey "track1") ∧
    ((saveBestTime st t "track1" 100).2.2 = true ↔
      st (bestKey "track1") = none ∨ ∃ b, st (bestKey "track1") = some b ∧ (100:ℚ) < b) := by
  refine ⟨rfl, ?_⟩
  exact (saveBestTime_record_iff (fun _ => none) ⟨0, 0, [], none, false, 0, 1, 0⟩ "track1" 100 rfl).1

/-- Finish handling never touches the cached checkpoint pose or the
`onCheckpoint` event list (Game.js lines 249-286). -/
theorem handleFinish_preserves_pose (now : ℚ) (g : GameState) :
    (handleFinish now g).lastCheckpointPosition = g.lastCheckpointPosition ∧
    (handleFinish now g).lastCheckpointRotation = g.lastCheckpointRotation ∧
    (handleFinish now g).cpEvents = g.cpEvents := by
  unfold handleFinish finishRace
  split <;> exact ⟨rfl, rfl, rfl⟩

/-- A concrete `Game` state used to exercise the checkpoint logic: playing,
3 checkpoints, cursor 3 (expected next index `3 % 3 = 0`, the finish
gate), lap 1 of 2, timer running. -/
def gCp : GameState where
  state := RaceState.playing
  currentTrackId := "track1"
  currentCheckpoint := 3
  totalCheckpoints := 3
  lastCheckpointPosition := ⟨0, 0, 0⟩
  lastCheckpointRotation := 0
  timer := ⟨0, 0, [], none, true, 1, 2, 0⟩
  physicsPosition := ⟨1, 2, 3⟩
  physicsRotY := 0
  ghostRecording := true
  ghostPlaying := true
  cpEvents := []
  finishEvents := []
  store := fun _ => none

/-- C2 counterexample: at `gCp` the finish gate (index 0) is exactly the
expected next checkpoint, so the hit is accepted, yet the cursor ends at
0 rather than `currentCheckpoint + 1 = 4`: finish handling on a non-final
lap overrides the increment.  This refutes the claim that an accepted hit
always leaves the cursor incremented by one. -/
theorem handleCheckpoint_accepted_cursor_not_incremented :
    0 = gCp.currentCheckpoint % gCp.totalCheckpoints ∧
    gCp.state = RaceState.playing ∧
    (handleCheckpoint 1000 gCp 0 true).currentCheckpoint = 0 ∧
    (handleCheckpoint 1000 gCp 0 true).currentCheckpoint ≠ gCp.currentCheckpoint + 1 := by
  refine ⟨rfl, rfl, rfl, ?_⟩
  intro h
  rw [show (handleCheckpoint 1000 gCp 0 true).currentCheckpoint = 0 from rfl] at h
  exact absurd h (by decide)

/-- C2 (amended): an out-of-order hit (index different from
`currentCheckpoint % totalCheckpoints`) leaves the whole game state
unchanged; an accepted hit caches the physics pose, fires `onCheckpoint`,
and — when the gate is not finish-flagged — increments the cursor by one
and changes nothing else.  (For finish-flagged gates the cursor is
subsequently overridden by finish handling, see the counterexample.) -/
theorem handleCheckpoint_order (now : ℚ) (g : GameState) (index : ℕ) (isFin : Bool)
    (_hplay : g.state = RaceState.playing) (htot : 1 ≤ g.totalCheckpoints) :
    (index ≠ g.currentCheckpoint % g.totalCheckpoints → handleCheckpoint now g index isFin = g) ∧
    (index = g.currentCheckpoint % g.totalCheckpoints →
      (handleCheckpoint now g index isFin).lastCheckpointPosition = g.physicsPosition ∧
      (handleCheckpoint now g index isFin).lastCheckpointRotation = g.physicsRotY ∧
      (handleCheckpoint now g index isFin).cpEvents = g.cpEvents ++ [⟨index, isFin⟩] ∧
      (isFin = false →
        handleCheckpoint now g index isFin =
          { g with
            lastCheckpointPosition := g.physicsPosition
            lastCheckpointRotation := g.physicsRotY
            currentCheckpoint := g.currentCheckpoint + 1
            cpEvents := g.cpEvents ++ [⟨index, isFin⟩] })) := by
  have h0 : g.totalCheckpoints ≠ 0 := by omega
  constructor
  · intro hne
    unfold handleCheckpoint
    rw [if_neg h0, if_pos hne]
  · intro heq
    unfold handleCheckpoint
    rw [if_neg h0, if_neg (by simpa using heq)]
    cases isFin with
    | false => exact ⟨rfl, rfl, rfl, fun _ => rfl⟩
    | true =>
      refine ⟨?_, ?_, ?_, fun h => by simp at h⟩
      · exact (handleFinish_preserves_pose now _).1
      · exact (handleFinish_preserves_pose now _).2.1
      · exact (handleFinish_preserves_pose now _).2.2

/-- Witness for C2 (amended) at a concrete input: at `gCp` a hit on
checkpoint 2 (expected is 0) is silently ignored. -/
theorem handleCheckpoint_order_witness :
    gCp.state = RaceState.playing ∧ 1 ≤ gCp.totalCheckpoints ∧
    handleCheckpoint 7 gCp 2 false = gCp :=
  ⟨rfl, by decide, (handleCheckpoint_order 7 gCp 2 false rfl (by decide)).1 (by decide)⟩

/-- Same as `gCp` but on the final lap (lap 2 of 2). -/
def gFin : GameState := { gCp with timer := ⟨0, 0, [], none, true, 2, 2, 0⟩ }

/-- C3 divergence: an accepted finish hit on a non-final lap records the
split, increments the lap and stays `playing`, but `handleFinish` sets
the checkpoint cursor to 0 — the start/finish gate itself — rather than
to the first non-start checkpoint (index 1, the convention Game.js
line 92 `resetRace` establishes with `currentCheckpoint = 1`).  The
expected next index becomes `0 % 3 = 0`, so the finish gate the vehicle
is still inside immediately re-validates.  The final-lap branch behaves
as the claim states. -/
theorem handleFinish_cursor_divergence :
    (handleCheckpoint 1000 gCp 0 true).state = RaceState.playing ∧
    (handleCheckpoint 1000 gCp 0 true).timer.currentLap = 2 ∧
    (handleCheckpoint 1000 gCp 0 true).timer.lapTimes = [1000] ∧
    (handleCheckpoint 1000 gCp 0 true).currentCheckpoint = 0 ∧
    (handleCheckpoint 1000 gCp 0 true).currentCheckpoint %
      (handleCheckpoint 1000 gCp 0 true).totalCheckpoints = 0 ∧
    (handleCheckpoint 1000 gCp 0 true).currentCheckpoint ≠ 1 ∧
    (handleCheckpoint 1000 gFin 0 true).state = RaceState.finished ∧
    (handleCheckpoint 1000 gFin 0 true).timer.isRunning = false ∧
    (handleCheckpoint 1000 gFin 0 true).ghostRecording = false ∧
    (handleCheckpoint 1000 gFin 0 true).ghostPlaying = false ∧
    (handleCheckpoint 1000 gFin 0 true).timer.bestTime = some 1000 ∧
    (handleCheckpoint 1000 gFin 0 true).store (bestKey "track1") = some 1000 := by
  refine ⟨rfl, rfl, ?_, rfl, rfl, by decide, rfl, rfl, rfl, rfl, ?_, ?_⟩
  · show [] ++ [(1000:ℚ) - 0] = [1000]
    norm_num
  · show some ((1000:ℚ) - 0) = some 1000
    norm_num
  · show Store.set (fun _ => none) (bestKey "track1") ((1000:ℚ) - 0) (bestKey "track1") = some 1000
    simp [Store.set]

/-- C10: `pause` and `resume` are pure state-field toggles: outside
`playing` (resp. `paused`) they are the identity, and in every case all
fields other than `state` — physics pose mirror, timer, checkpoint
cursor, cached pose, ghost flags, events, storage — are untouched. -/
theorem pause_resume_state_only (g : GameState) :
    (g.state ≠ RaceState.playing → pause g = g) ∧
    (g.state ≠ RaceState.paused → resume g = g) ∧
    pause g =
      { g with state := if g.state = RaceState.playing then RaceState.paused else g.state } ∧
    resume g =
      { g with state := if g.state = RaceState.paused then RaceState.playing else g.state } := by
  refine ⟨fun h => ?_, fun h => ?_, ?_, ?_⟩
  · simp [pause, h]
  · simp [resume, h]
  · unfold pause
    split <;> simp [*]
  · unfold resume
    split <;> simp [*]

/-- A concrete non-playing, non-paused state for the C10 witness. -/
def gMenu : GameState := { gCp with state := RaceState.menu }

/-- Witness for C10 at a concrete input: in the menu state both calls are
the identity. -/
theorem pause_resume_state_only_witness :
    gMenu.state ≠ RaceState.playing ∧ gMenu.state ≠ RaceState.paused ∧
    pause gMenu = gMenu ∧ resume gMenu = gMenu :=
  ⟨by decide, by decide,
    (pause_resume_state_only gMenu).1 (by decide),
    (pause_resume_state_only gMenu).2.1 (by decide)⟩

/-! ## Vehicle physics (src/js/physics/VehiclePhysics.js)

The grounded branch (`updateGroundedPhysics`, lines 121-195) decomposes
the velocity into scalar forward/lateral components along the vehicle's
forward/right axes, updates those scalars, and reconstructs the velocity
from them in the (possibly yawed) new frame.  On flat ground the
orientation is a pure yaw rotation (`alignToGround`, lines 246-262, keeps
`rotation.x = rotation.z = 0` when `groundNormal = (0,1,0)`), the
forward/right axes stay an orthonormal horizontal frame, and the
reconstruction `velocity = forward*forwardSpeed + right*lateralSpeed`
(lines 186-191) zeroes the vertical component, so the scalar pair
(plus steering/drift bookkeeping) is the complete vehicle state.  The
embedding below is that scalar form. -/

/-- `this.config` of `VehiclePhysics` (constructor lines 23-53 and the
part_006 variant lines 23-53). -/
structure VehicleConfig where
  maxSpeed : ℚ
  acceleration : ℚ
  brakeForce : ℚ
  reverseMaxSpeed : ℚ
  maxSteerAngle : ℚ
  steerSpeed : ℚ
  steerSpeedFactor : ℚ
  driftFriction : ℚ
  normalFriction : ℚ
  driftSteerMultiplier : ℚ
  gravity : ℚ
  airControl : ℚ

/-- Config of `src/js/physics/VehiclePhysics.js` (lines 23-53). -/
def configMain : VehicleConfig :=
  ⟨80, 25, 40, 20, 0.8, 3, 0.7, 0.92, 0.98, 1.5, -30, 0.3⟩

/-- Config of the `src/unnamed/part_006` variant (lines 23-53); its
`maxSpeed = 90`, `acceleration = 30` are the numbers of the spec's
concrete scenario. -/
def configPT : VehicleConfig :=
  ⟨90, 30, 40, 20, 0.8, 5, 0.7, 0.96, 0.98, 1.2, -30, 0.3⟩

/-- Scalar vehicle state on flat ground: forward/lateral velocity
components, steering angle, heading, drift bookkeeping
(`VehiclePhysics` fields `velocity` decomposed, `steerAngle`,
`rotation.y`, `driftFactor`, `isDrifting`). -/
structure VehState where
  forwardSpeed : ℚ
  lateralSpeed : ℚ
  steerAngle : ℚ
  yaw : ℚ
  driftFactor : ℚ
  isDrifting : Bool

/-- Longitudinal speed pipeline of `updateGroundedPhysics`
(VehiclePhysics.js lines 132-151, identical in part_006 lines 135-154):
throttle acceleration gated on `forwardSpeed < maxSpeed`, braking toward
zero then reverse, rolling-resistance factor 0.995 when coasting. -/
def forwardSpeedStep (cfg : VehicleConfig) (throttle brake dt fs : ℚ) : ℚ :=
  let fs1 := if 0 < throttle ∧ fs < cfg.maxSpeed then fs + cfg.acceleration * throttle * dt else fs
  let fs2 :=
    if 0 < brake then
      if 0 < fs1 then max 0 (fs1 - cfg.brakeForce * brake * dt)
      else if -cfg.reverseMaxSpeed < fs1 then fs1 - cfg.acceleration * brake * (1/2) * dt
      else fs1
    else fs1
  if throttle = 0 ∧ brake = 0 then fs2 * 0.995 else fs2

/-- `updateGroundedPhysics` (VehiclePhysics.js lines 121-195) on flat
ground, in scalar form: longitudinal step, smoothed speed-sensitive
steering (lines 153-158), drift flag/factor (lines 160-167), turn rate
and lateral grip (lines 169-183), velocity reconstruction (lines
186-191; the reconstructed forward component is exactly `forwardSpeed`,
which is also the `this.speed` recomputed at the end of `update`,
line 118). -/
def updateGroundedFlat (cfg : VehicleConfig) (throttle brake steer : ℚ) (drift : Bool)
    (dt : ℚ) (s : VehState) : VehState :=
  let fs := forwardSpeedStep cfg throttle brake dt s.forwardSpeed
  let speedFactor := 1 - min (|fs| / cfg.maxSpeed) 1 * cfg.steerSpeedFactor
  let targetSteer := steer * cfg.maxSteerAngle * speedFactor
  let sa := s.steerAngle + (targetSteer - s.steerAngle) * cfg.steerSpeed * dt
  let df := if drift = true ∧ 10 < |fs| then min (s.driftFactor + dt * 3) 1
            else max (s.driftFactor - dt * 5) 0
  let drifting := if drift = true ∧ 10 < |fs| then true
                  else if max (s.driftFactor - dt * 5) 0 < 0.1 then false else s.isDrifting
  let turnRate := if drifting = true then sa * (fs / 20) * cfg.driftSteerMultiplier
                  else sa * (fs / 20)
  let ls := if drifting = true then s.lateralSpeed * cfg.driftFriction
            else s.lateralSpeed * cfg.normalFriction * (1 - min (|fs| / cfg.maxSpeed) (1/2))
  { forwardSpeed := fs
    lateralSpeed := ls
    steerAngle := sa
    yaw := s.yaw - turnRate * dt
    driftFactor := df
    isDrifting := drifting }

/-- `VehiclePhysics.applyCollision` (lines 289-299, identical in
part_005 lines 339-349 and part_006 lines 322-332): push the position
out along the normal, and when the velocity points inward remove 1.5x
the inward component and scale the result by 0.7. -/
def applyCollision (normal : Vec3) (penetration : ℚ) (position velocity : Vec3) :
    Vec3 × Vec3 :=
  let pos1 := position.add (Vec3.smul penetration normal)
  let d := velocity.dot normal
  if d < 0 then (pos1, Vec3.smul 0.7 (velocity.sub (Vec3.smul (d * 1.5) normal)))
  else (pos1, velocity)

/-- `VehiclePhysics.applyBoost` (lines 304-308, identical in part_005
lines 354-358 and part_006 lines 337-341): `velocity.copy(forward *
min(speed*multiplier, maxSpeed*1.2))`.  The pre-call velocity is a
parameter only to witness that it is discarded by the overwrite. -/
def applyBoost (cfg : VehicleConfig) (forward : Vec3) (speed mult : ℚ) (_velocity : Vec3) : Vec3 :=
  Vec3.smul (min (speed * mult) (cfg.maxSpeed * 1.2)) forward

theorem Vec3.dot_smul_left (c : ℚ) (a b : Vec3) :
    (Vec3.smul c a).dot b = c * a.dot b := by
  simp only [Vec3.dot, Vec3.smul]
  ring

theorem Vec3.dot_sub_left (a b c : Vec3) :
    (a.sub b).dot c = a.dot c - b.dot c := by
  simp only [Vec3.dot, Vec3.sub]
  ring

/-- With positive throttle and no brake, the longitudinal step reduces
to the gated acceleration (braking and coasting branches are off). -/
theorem fstep_throttle (cfg : VehicleConfig) (throttle dt fs : ℚ) (hthr : 0 < throttle) :
    forwardSpeedStep cfg throttle 0 dt fs =
      if fs < cfg.maxSpeed then fs + cfg.acceleration * throttle * dt else fs := by
  unfold forwardSpeedStep
  simp only [lt_irrefl, if_false, ite_false, hthr, true_and, and_true, hthr.ne', if_neg]

/-- With zero throttle and zero brake, the longitudinal step is exactly
the rolling-resistance factor 0.995 (VehiclePhysics.js lines 148-151). -/
theorem fstep_coast (cfg : VehicleConfig) (dt fs : ℚ) :
    forwardSpeedStep cfg 0 0 dt fs = fs * 0.995 := by
  unfold forwardSpeedStep
  simp

/-- Pre-update state for the C4 counterexample: forward speed 89, just
under `configPT.maxSpeed = 90`. -/
def vehNearMax : VehState := ⟨89, 0, 0, 0, 0, false⟩

/-- Vehicle at rest (spec scenario start state). -/
def vehRest : VehState := ⟨0, 0, 0, 0, 0, false⟩

/-- C4 counterexample: throttle acceleration is only gated on
`forwardSpeed < maxSpeed`, never clamped, so one full-throttle update of
1 s from 89 m/s (acceleration 30, maxSpeed 90) ends at 119 m/s: the
invariant `forwardSpeed <= maxSpeed` is not preserved. -/
theorem updateGroundedFlat_not_clamped :
    vehNearMax.forwardSpeed ≤ configPT.maxSpeed ∧
    (updateGroundedFlat configPT 1 0 0 false 1 vehNearMax).forwardSpeed = 119 ∧
    ¬ (updateGroundedFlat configPT 1 0 0 false 1 vehNearMax).forwardSpeed ≤ configPT.maxSpeed := by
  refine ⟨by norm_num [vehNearMax, configPT], ?_, ?_⟩ <;>
    norm_num [updateGroundedFlat, forwardSpeedStep, vehNearMax, configPT]

/-- C4 (amended): with throttle in (0,1], positive dt, no brake and
pre-update forward speed at most `maxSpeed`, the post-update forward
speed can exceed `maxSpeed` by at most `acceleration*throttle*dt`
(acceleration applies only while strictly below `maxSpeed`). -/
theorem updateGroundedFlat_overshoot_bound (cfg : VehicleConfig) (throttle dt : ℚ)
    (s : VehState) (hacc : 0 ≤ cfg.acceleration) (hthr : 0 < throttle) (_hthr1 : throttle ≤ 1)
    (hdt : 0 < dt) (hfs : s.forwardSpeed ≤ cfg.maxSpeed) :
    (updateGroundedFlat cfg throttle 0 0 false dt s).forwardSpeed ≤
      cfg.maxSpeed + cfg.acceleration * throttle * dt := by
  have hq : 0 ≤ cfg.acceleration * throttle * dt :=
    mul_nonneg (mul_nonneg hacc hthr.le) hdt.le
  have he : (updateGroundedFlat cfg throttle 0 0 false dt s).forwardSpeed =
      forwardSpeedStep cfg throttle 0 dt s.forwardSpeed := rfl
  rw [he, fstep_throttle cfg throttle dt s.forwardSpeed hthr]
  split_ifs with h1
  · linarith
  · linarith

/-- Witness for C4 (amended) at the spec's concrete scenario: one second
of full throttle from rest with `acceleration = 30, maxSpeed = 90`
yields forward speed `30 = min 30 90`, within the amended bound. -/
theorem updateGroundedFlat_overshoot_bound_witness :
    (0:ℚ) ≤ configPT.acceleration ∧ (0:ℚ) < 1 ∧ (1:ℚ) ≤ 1 ∧
    vehRest.forwardSpeed ≤ configPT.maxSpeed ∧
    (updateGroundedFlat configPT 1 0 0 false 1 vehRest).forwardSpeed = min 30 90 ∧
    (updateGroundedFlat configPT 1 0 0 false 1 vehRest).forwardSpeed ≤
      configPT.maxSpeed + configPT.acceleration * 1 * 1 :=
  ⟨by norm_num [configPT], by norm_num, le_refl 1,
   by norm_num [vehRest, configPT],
   by norm_num [updateGroundedFlat, forwardSpeedStep, vehRest, configPT],
   updateGroundedFlat_overshoot_bound configPT 1 1 vehRest (by norm_num [configPT])
     (by norm_num) (le_refl 1) (by norm_num) (by norm_num [vehRest, configPT])⟩

/-- C5: `applyCollision` with a unit normal and an inward velocity
(negative dot with the normal) leaves a non-negative — outward or zero —
velocity component along the normal: removing 1.5x the inward component
flips it to 0.5x outward, and the 0.7 scaling keeps it non-negative. -/
theorem applyCollision_no_inward (n : Vec3) (p : ℚ) (pos v : Vec3)
    (hn : n.dot n = 1) (_hp : 0 ≤ p) (hv : v.dot n < 0) :
    0 ≤ ((applyCollision n p pos v).2).dot n := by
  have he : (applyCollision n p pos v).2 =
      Vec3.smul 0.7 (v.sub (Vec3.smul (v.dot n * 1.5) n)) := by
    unfold applyCollision
    simp only [hv, if_true]
  rw [he, Vec3.dot_smul_left, Vec3.dot_sub_left, Vec3.dot_smul_left, hn]
  nlinarith [hv]

/-- Witness for C5 at a concrete input: unit normal (3/5, 4/5, 0),
velocity (0,-1,0) pointing inward. -/
theorem applyCollision_no_inward_witness :
    (Vec3.dot ⟨3/5, 4/5, 0⟩ ⟨3/5, 4/5, 0⟩ : ℚ) = 1 ∧
    (Vec3.dot ⟨0, -1, 0⟩ ⟨3/5, 4/5, 0⟩ : ℚ) < 0 ∧
    0 ≤ ((applyCollision ⟨3/5, 4/5, 0⟩ 1 ⟨0, 0, 0⟩ ⟨0, -1, 0⟩).2).dot ⟨3/5, 4/5, 0⟩ :=
  ⟨by norm_num [Vec3.dot], by norm_num [Vec3.dot],
   applyCollision_no_inward ⟨3/5, 4/5, 0⟩ 1 ⟨0, 0, 0⟩ ⟨0, -1, 0⟩
     (by norm_num [Vec3.dot]) (by norm_num) (by norm_num [Vec3.dot])⟩

/-- C6 counterexample: `applyBoost` overwrites the whole velocity with
the boosted forward vector, so a purely lateral pre-call velocity
(component 1 along the right axis) ends with lateral component 0 — the
lateral velocity is zeroed, not left unchanged. -/
theorem applyBoost_lateral_zeroed :
    (applyBoost configMain ⟨0, 0, -1⟩ 0 1.5 ⟨1, 0, 0⟩).dot ⟨1, 0, 0⟩ = 0 ∧
    (Vec3.dot ⟨1, 0, 0⟩ ⟨1, 0, 0⟩ : ℚ) = 1 ∧
    (applyBoost configMain ⟨0, 0, -1⟩ 0 1.5 ⟨1, 0, 0⟩).dot ⟨1, 0, 0⟩ ≠
      Vec3.dot ⟨1, 0, 0⟩ ⟨1, 0, 0⟩ := by
  refine ⟨?_, ?_, ?_⟩ <;> norm_num [applyBoost, Vec3.dot, Vec3.smul, configMain]

/-- C6 (amended): `applyBoost` replaces the entire velocity with
`forward * min(speed*multiplier, maxSpeed*1.2)`: along a unit forward
axis the new forward component is exactly that minimum, and along any
axis orthogonal to forward (the lateral axis) the new component is 0
— zeroed rather than preserved. -/
theorem applyBoost_forward_min (cfg : VehicleConfig) (f r v : Vec3) (speed mult : ℚ)
    (hf : f.dot f = 1) (hr : f.dot r = 0) :
    (applyBoost cfg f speed mult v).dot f = min (speed * mult) (cfg.maxSpeed * 1.2) ∧
    (applyBoost cfg f speed mult v).dot r = 0 := by
  unfold applyBoost
  rw [Vec3.dot_smul_left, Vec3.dot_smul_left, hf, hr, mul_one, mul_zero]
  exact ⟨rfl, rfl⟩

/-- Witness for C6 (amended) at a concrete input. -/
theorem applyBoost_forward_min_witness :
    (Vec3.dot ⟨0, 0, -1⟩ ⟨0, 0, -1⟩ : ℚ) = 1 ∧ (Vec3.dot ⟨0, 0, -1⟩ ⟨1, 0, 0⟩ : ℚ) = 0 ∧
    (applyBoost configMain ⟨0, 0, -1⟩ 50 1.5 ⟨1, 0, 0⟩).dot ⟨0, 0, -1⟩ =
      min (50 * 1.5) (configMain.maxSpeed * 1.2) ∧
    (applyBoost configMain ⟨0, 0, -1⟩ 50 1.5 ⟨1, 0, 0⟩).dot ⟨1, 0, 0⟩ = 0 :=
  ⟨by norm_num [Vec3.dot], by norm_num [Vec3.dot],
   (applyBoost_forward_min configMain ⟨0, 0, -1⟩ ⟨1, 0, 0⟩ ⟨1, 0, 0⟩ 50 1.5
     (by norm_num [Vec3.dot]) (by norm_num [Vec3.dot])).1,
   (applyBoost_forward_min configMain ⟨0, 0, -1⟩ ⟨1, 0, 0⟩ ⟨1, 0, 0⟩ 50 1.5
     (by norm_num [Vec3.dot]) (by norm_num [Vec3.dot])).2⟩

/-! ## The part_005 physics variant (src/unnamed/part_005, lines 122-232)

This variant computes a local `forwardSpeed` scalar (throttle, brake,
rolling resistance at line 151, drag at line 210) but reconstructs the
velocity from `vForward = velocity.dot(newForward)` — the projection of
the PRE-update velocity onto the yawed axes (lines 179-183, 212-214) —
so the computed longitudinal changes never reach the velocity.  The
embedding keeps the velocity in the current car frame (forward, right,
world-up components; on flat ground the frame is a pure yaw rotation and
the axes stay orthonormal), and takes the trigonometric functions as an
abstract parameter constrained in the theorems (only their values at 0
matter for the claims). -/

/-- Abstract trigonometric functions (`Math.tan`, and the cosine/sine of
the yaw delta used to re-project the old velocity onto the yawed axes). -/
structure TrigFns where
  sinq : ℚ → ℚ
  cosq : ℚ → ℚ
  tanq : ℚ → ℚ

/-- Scalar state for the part_005 variant on flat ground: velocity in
the current car frame plus vertical component, steering angle, heading,
drift flag. -/
structure VehState5 where
  forwardSpeed : ℚ
  lateralSpeed : ℚ
  vy : ℚ
  steerAngle : ℚ
  yaw : ℚ
  isDrifting : Bool

/-- `updateGroundedPhysics` of part_005 (lines 122-232) on flat ground
(config values of lines 23-51 inlined where the code reads them,
hardcoded constants — wheelbase 2.5, stiffness 10, base normal force 30,
aero 1.5/0.02, drag 0.1/0.001 — as in the source): longitudinal scalar
pipeline, steering smoothing, yaw from the bicycle model, re-projection
of the old velocity, grip-capped lateral friction, scalar drag, aero
downforce and gravity on the vertical component. -/
def part005GroundedFlat (trig : TrigFns) (throttle brake steer : ℚ) (drift : Bool)
    (dt : ℚ) (s : VehState5) : VehState5 :=
  let fs0 := s.forwardSpeed
  let ls0 := s.lateralSpeed
  let fs1 := if 0 < throttle ∧ fs0 < 90 then fs0 + 30 * throttle * dt else fs0
  let fs2 :=
    if 0 < brake then
      if 0 < fs1 then max 0 (fs1 - 40 * brake * dt)
      else if -20 < fs1 then fs1 - 30 * brake * (1/2) * dt
      else fs1
    else fs1
  let fs3 := if throttle = 0 ∧ brake = 0 then fs2 - fs2 * (1/2) * dt else fs2
  let speedFactor := 1 - min (|fs3| / 90) 1 * 0.5
  let targetSteer := steer * 0.6 * speedFactor
  let sa := s.steerAngle + (targetSteer - s.steerAngle) * 4 * dt
  let delta := fs3 / 2.5 * trig.tanq sa * dt
  let vForward := fs0 * trig.cosq delta - ls0 * trig.sinq delta
  let vLateral := fs0 * trig.sinq delta + ls0 * trig.cosq delta
  let maxGrip := (30 + |fs3| * 1.5) * 1.1
  let frictionForce := -vLateral * 10
  let applied0 := max (-maxGrip) (min maxGrip frictionForce)
  let applied :=
    if drift = true then applied0 * 0.1
    else if maxGrip < |frictionForce| then applied0 * 0.8
    else applied0
  let drifting :=
    if drift = true then true
    else if maxGrip < |frictionForce| then true
    else false
  let fs4 := fs3 - 0.1 * dt * (fs3 * fs3 * 0.001)
  { forwardSpeed := vForward
    lateralSpeed := vLateral + applied * dt
    vy := s.vy - |fs4| * fs4 * 0.02 * dt + (-40) * dt
    steerAngle := sa
    yaw := s.yaw + delta
    isDrifting := drifting }

/-- C7: in the canonical `VehiclePhysics.js` a zero-input grounded
update multiplies the forward speed by 0.995 — strictly shrinking a
nonzero magnitude and preserving the sign for every `dt > 0` — but in
the part_005 variant the same call leaves the forward velocity
component exactly unchanged: the rolling-resistance decay it computes
(line 151) is discarded when the velocity is rebuilt from the
pre-update projection `vForward` (lines 182, 213), contradicting both
the claim and the variant's own "Natural deceleration (rolling
resistance + drag)" comment. -/
theorem part005_coast_no_decay (trig : TrigFns) (dt : ℚ) (s : VehState5) (s2 : VehState)
    (htan : trig.tanq 0 = 0) (hcos : trig.cosq 0 = 1) (hsin : trig.sinq 0 = 0)
    (hsa : s.steerAngle = 0) (_hdt : 0 < dt) :
    (part005GroundedFlat trig 0 0 0 false dt s).forwardSpeed = s.forwardSpeed ∧
    (updateGroundedFlat configMain 0 0 0 false dt s2).forwardSpeed = s2.forwardSpeed * 0.995 ∧
    (s2.forwardSpeed ≠ 0 → |s2.forwardSpeed * 0.995| < |s2.forwardSpeed|) ∧
    (0 < s2.forwardSpeed → 0 < s2.forwardSpeed * 0.995) ∧
    (s2.forwardSpeed < 0 → s2.forwardSpeed * 0.995 < 0) := by
  refine ⟨?_, ?_, fun h => ?_, fun h => ?_, fun h => ?_⟩
  · unfold part005GroundedFlat
    simp only [hsa]
    norm_num [htan, hcos, hsin]
  · exact fstep_coast configMain dt s2.forwardSpeed
  · rw [abs_mul]
    calc |s2.forwardSpeed| * |(0.995:ℚ)| = |s2.forwardSpeed| * 0.995 := by norm_num
    _ < |s2.forwardSpeed| * 1 := by
        have := abs_pos.mpr h
        nlinarith
    _ = |s2.forwardSpeed| := mul_one _
  · positivity
  · nlinarith

/-- Concrete trig functions pinned at 0 for the C7 witness. -/
def trigZero : TrigFns := ⟨fun _ => 0, fun _ => 1, fun _ => 0⟩

/-- A part_005 flat state coasting at 10 m/s. -/
def veh5Coast : VehState5 := ⟨10, 0, 0, 0, 0, false⟩

/-- Witness for C7 at a concrete input: coasting at 10 m/s with dt = 1,
part_005 keeps forward speed 10 while the canonical variant decays it. -/
theorem part005_coast_no_decay_witness :
    trigZero.tanq 0 = 0 ∧ trigZero.cosq 0 = 1 ∧ trigZero.sinq 0 = 0 ∧
    veh5Coast.steerAngle = 0 ∧ (0:ℚ) < 1 ∧
    (part005GroundedFlat trigZero 0 0 0 false 1 veh5Coast).forwardSpeed =
      veh5Coast.forwardSpeed :=
  ⟨rfl, rfl, rfl, rfl, by norm_num,
   (part005_coast_no_decay trigZero 1 veh5Coast vehRest rfl rfl rfl rfl (by norm_num)).1⟩

/-! ## Ghost playback (src/js/game/GhostCar.js, lines 126-170) -/

/-- A recorded ghost frame (`recordFrame`, lines 73-95): timestamp plus
pose sample. -/
structure GhostFrame where
  time : ℚ
  pos : Vec3
  quat : Quat

/-- The frame-advance while loop of `GhostCar.update` (lines 130-133):
starting from `idx`, advance while a next frame exists whose timestamp
is at most `currentTime`.  Fuel-structured recursion; `frames.length`
fuel always suffices. -/
def advanceIdx (frames : List GhostFrame) (ct : ℚ) : ℕ → ℕ → ℕ
  | 0, idx => idx
  | fuel + 1, idx =>
    match frames.get? (idx + 1) with
    | none => idx
    | some f =>
      if idx < frames.length - 1 ∧ f.time ≤ ct then advanceIdx frames ct fuel (idx + 1)
      else idx

/-- `a + (b - a) * t`, the position interpolation of lines 149-153. -/
def lerpCoord (a b t : ℚ) : ℚ := a + (b - a) * t

/-- `GhostCar.update(currentTime)` (lines 126-170): advance the playback
index, stop (`none`, modelling `stopPlayback`) at the trailing frame,
otherwise clamp the interpolation parameter to [0,1], lerp the position
and slerp the rotation.  The quaternion slerp is the external
`THREE.Quaternion.slerp` call of line 169 (spec: shortest-arc spherical
interpolation); it is abstracted as the `slerpFn` parameter, applied at
exactly the clamped parameter the code computes. -/
def ghostUpdate (slerpFn : Quat → Quat → ℚ → Quat) (frames : List GhostFrame)
    (playbackIndex : ℕ) (currentTime : ℚ) : Option (ℕ × Vec3 × Quat) :=
  if frames.length = 0 then none
  else
    let i := advanceIdx frames currentTime frames.length playbackIndex
    if frames.length - 1 ≤ i then none
    else
      match frames.get? i, frames.get? (i + 1) with
      | some fr1, some fr2 =>
        let t := (currentTime - fr1.time) / (fr2.time - fr1.time)
        let ct := max 0 (min 1 t)
        some (i,
          ⟨lerpCoord fr1.pos.x fr2.pos.x ct, lerpCoord fr1.pos.y fr2.pos.y ct,
           lerpCoord fr1.pos.z fr2.pos.z ct⟩,
          slerpFn fr1.quat fr2.quat ct)
      | _, _ => none

/-- The advance loop stays put when the next frame is strictly later
than the current playback time. -/
theorem advanceIdx_stop (frames : List GhostFrame) (ct : ℚ) (fuel idx : ℕ)
    (h : ∀ f, frames.get? (idx + 1) = some f → ct < f.time) :
    advanceIdx frames ct fuel idx = idx := by
  cases fuel with
  | zero => rfl
  | succ n =>
    unfold advanceIdx
    cases hf : frames.get? (idx + 1) with
    | none => rfl
    | some f =>
      have : ¬ (idx < frames.length - 1 ∧ f.time ≤ ct) := by
        rintro ⟨-, hle⟩
        exact absurd hle (not_le.mpr (h f hf))
      dsimp only
      rw [if_neg this]

/-- C8: playing back at the timestamp exactly midway between two
consecutive recorded frames (any prefix of earlier frames, any suffix of
later ones, playback index at the first of the pair) interpolates with
clamped parameter exactly 1/2: the position is the componentwise
arithmetic midpoint of the two frame positions and the rotation is the
quaternion slerp — the shortest-arc spherical interpolation — of the two
frame orientations at parameter 1/2. -/
theorem ghostUpdate_midpoint (slerpFn : Quat → Quat → ℚ → Quat)
    (pre suf : List GhostFrame) (f1 f2 : GhostFrame) (ht : f1.time < f2.time) :
    ghostUpdate slerpFn (pre ++ f1 :: f2 :: suf) pre.length ((f1.time + f2.time) / 2) =
      some (pre.length,
        ⟨(f1.pos.x + f2.pos.x) / 2, (f1.pos.y + f2.pos.y) / 2, (f1.pos.z + f2.pos.z) / 2⟩,
        slerpFn f1.quat f2.quat (1 / 2)) := by
  set frames := pre ++ f1 :: f2 :: suf with hframes
  set mid := (f1.time + f2.time) / 2 with hmid
  have hlen : frames.length = pre.length + suf.length + 2 := by
    rw [hframes]
    simp [List.length_append]
    omega
  have h1 : frames.get? pre.length = some f1 := by
    rw [hframes]
    simp only [List.get?_eq_getElem?]
    rw [List.getElem?_append_right (le_refl _)]
    simp
  have h2 : frames.get? (pre.length + 1) = some f2 := by
    rw [hframes]
    simp only [List.get?_eq_getElem?]
    rw [List.getElem?_append_right (by omega)]
    have hone : pre.length + 1 - pre.length = 1 := by omega
    rw [hone]
    simp
  have hmidlt : mid < f2.time := by
    rw [hmid]
    linarith
  have hadv : advanceIdx frames mid frames.length pre.length = pre.length := by
    apply advanceIdx_stop
    intro f hf
    rw [h2] at hf
    injection hf with hf
    exact hf ▸ hmidlt
  have htv : (mid - f1.time) / (f2.time - f1.time) = 1 / 2 := by
    have hne : f2.time - f1.time ≠ 0 := sub_ne_zero.mpr (ne_of_gt ht)
    rw [hmid]
    field_simp
    ring
  have hlerp : ∀ a b : ℚ, lerpCoord a b (1 / 2) = (a + b) / 2 := fun a b => by
    unfold lerpCoord
    ring
  unfold ghostUpdate
  rw [if_neg (by omega)]
  simp only [hadv]
  rw [if_neg (by omega), h1, h2]
  dsimp only
  rw [htv]
  have hclamp : max (0:ℚ) (min 1 (1 / 2)) = 1 / 2 := by norm_num
  rw [hclamp, hlerp, hlerp, hlerp]

/-- Witness for C8 at a concrete input: two frames at times 0 and 2,
midpoint time 1; position lands at the midpoint (1,2,3). -/
theorem ghostUpdate_midpoint_witness :
    ((0:ℚ) < 2) ∧
    ghostUpdate (fun q _ _ => q) [⟨0, ⟨0, 0, 0⟩, ⟨0, 0, 0, 1⟩⟩, ⟨2, ⟨2, 4, 6⟩, ⟨1, 0, 0, 0⟩⟩]
        0 (((0:ℚ) + 2) / 2) =
      some (0, ⟨(0 + 2) / 2, (0 + 4) / 2, (0 + 6) / 2⟩, ⟨0, 0, 0, 1⟩) :=
  ⟨by norm_num,
   ghostUpdate_midpoint (fun q _ _ => q) [] []
     ⟨0, ⟨0, 0, 0⟩, ⟨0, 0, 0, 1⟩⟩ ⟨2, ⟨2, 4, 6⟩, ⟨1, 0, 0, 0⟩⟩ (by norm_num)⟩

/-! ## Spline track builder (src/js/track/SplineTrackBuilder.js, lines 24-35) -/

/-- The `{spawnPosition, spawnRotation, checkpointCount}` summary
returned by a successful build (lines 114-118). -/
structure TrackInfo where
  spawnPosition : Vec3
  spawnRotation : ℚ
  checkpointCount : ℕ

/-- `SplineTrackBuilder.build` degenerate-input guard (line 35:
`if (points.length < 2) return;`).  A thrown exception would be
`Except.error`; the silent `return` (JavaScript `undefined`) is
`Except.ok none`.  The geometry construction for 2 or more points
(Catmull-Rom extrusion, spawn extraction, checkpoint placement, lines
37-118) is irrelevant to the guard and abstracted as `buildRest`. -/
def splineBuild (buildRest : List Vec3 → TrackInfo) (points : List Vec3) :
    Except String (Option TrackInfo) :=
  if points.length < 2 then Except.ok none
  else Except.ok (some (buildRest points))

/-- C9 divergence: for degenerate input (zero or one geometry point)
`build` silently returns `undefined` — no exception is ever raised — so
the caller (`Game.loadTrack`, which immediately reads
`trackInfo.spawnPosition`) is handed `undefined` instead of the
descriptive build-time error the spec requires. -/
theorem splineBuild_silent_on_degenerate (buildRest : List Vec3 → TrackInfo) (p : Vec3) :
    splineBuild buildRest [p] = Except.ok none ∧
    splineBuild buildRest ([] : List Vec3) = Except.ok none ∧
    ∀ msg : String, splineBuild buildRest [p] ≠ Except.error msg := by
  refine ⟨rfl, rfl, fun msg h => ?_⟩
  rw [show splineBuild buildRest [p] = Except.ok none from rfl] at h
  exact Except.noConfusion h

end PolyRacer
